import Mathlib

/-!
Shallow embedding of the touch-slider MIDI controller
(`touch_slider.py`, `all_both_press_manager.py`, `mpr121_manager.py`,
`midi_manager.py`).  Python floats are modelled as rationals, machine
booleans as `Bool`, the fallible MIDI transport as an explicit budget of
successful sends (`Option Nat`: `none` = every send succeeds, `some n` =
the first `n` sends succeed and the next one raises).
-/

/-- Python `int(q)`: truncation toward zero. -/
def pyInt (q : ℚ) : ℤ := if 0 ≤ q then ⌊q⌋ else ⌈q⌉

/-- Python `round(q)` to the nearest integer, ties to even. -/
def pyRound (q : ℚ) : ℤ :=
  let fl := ⌊q⌋
  let f := q - fl
  if f < 1/2 then fl
  else if 1/2 < f then fl + 1
  else if Even fl then fl else fl + 1

/-- Immutable per-slider configuration (one entry of `SLIDERS` in
`config.py`). -/
structure SliderConfig where
  mpr121_address : ℕ
  down_pin : ℕ
  up_pin : ℕ
  cc_number : ℕ
  both_press_cc : Option ℕ
  initial_value : ℤ
  speed_initial : ℚ
  speed : ℚ
  accel_rate : ℚ
  activity_channel_cc : Option ℕ
deriving DecidableEq

/-- Mutable state of one `TouchSlider` (fields set in
`TouchSlider.__init__`). -/
structure Slider where
  mpr121 : ℕ
  value : ℚ
  last_sent_value : ℤ
  both_pressed : Bool
  hold_count_down : ℕ
  hold_count_up : ℕ
  enabled : Bool
  cached_touched_pins : List Bool
  activity_on : Bool
  last_activity_time : ℚ
deriving DecidableEq

/-- `TouchSlider.__init__`. -/
def TouchSlider_init (cfg : SliderConfig) (now : ℚ) : Slider :=
  { mpr121 := cfg.mpr121_address
    value := (cfg.initial_value : ℚ)
    last_sent_value := cfg.initial_value
    both_pressed := false
    hold_count_down := 0
    hold_count_up := 0
    enabled := true
    cached_touched_pins := List.replicate 12 false
    activity_on := false
    last_activity_time := now }

/-- Evaluation context threaded through one `TouchSlider.update` call:
current state, successful emissions so far (cc, value), remaining budget
of successful sends, and the local `changed` flag. -/
structure Ctx where
  s : Slider
  ems : List (ℕ × ℤ)
  left : Option ℕ
  changed : Bool
deriving DecidableEq

/-- `self.midi.send(ControlChange(cc, v))`: succeeds (recording the
emission) or raises, according to the send budget. -/
def trySend (cc : ℕ) (v : ℤ) (c : Ctx) : Except Ctx Ctx :=
  match c.left with
  | none => .ok { c with ems := c.ems ++ [(cc, v)] }
  | some 0 => .error c
  | some (n+1) => .ok { c with ems := c.ems ++ [(cc, v)], left := some n }

/-- `TouchSlider.activity_ping`. -/
def activity_ping (cfg : SliderConfig) (now : ℚ) (c : Ctx) : Except Ctx Ctx :=
  let c := { c with s := { c.s with last_activity_time := now } }
  match cfg.activity_channel_cc with
  | none => .ok c
  | some acc =>
    if c.s.activity_on then .ok c
    else
      match trySend acc 127 c with
      | .error c => .error c
      | .ok c => .ok { c with s := { c.s with activity_on := true } }

/-- Branch of `TouchSlider.update` taken when both debounced pins are
pressed (lines 83–90). -/
def updBoth (cfg : SliderConfig) (now : ℚ) (c : Ctx) : Except Ctx Ctx :=
  if c.s.both_pressed then .ok c
  else
    match cfg.both_press_cc with
    | none => .ok c
    | some bcc =>
      match trySend bcc 127 c with
      | .error c => .error c
      | .ok c =>
        activity_ping cfg now
          { c with s := { c.s with both_pressed := true }, changed := true }

/-- First step of the not-both-pressed branch: leaving the both-pressed
state (lines 92–98). -/
def updRelease (cfg : SliderConfig) (now : ℚ) (c : Ctx) : Except Ctx Ctx :=
  if c.s.both_pressed then
    match cfg.both_press_cc with
    | none => .ok c
    | some bcc =>
      match trySend bcc 0 c with
      | .error c => .error c
      | .ok c =>
        activity_ping cfg now
          { c with s := { c.s with both_pressed := false }, changed := true }
  else .ok c

/-- Down-pin evaluation (lines 101–109). -/
def updDown (cfg : SliderConfig) (down : Bool) (now : ℚ) (c : Ctx) :
    Except Ctx Ctx :=
  if down then
    let hc := c.s.hold_count_down + 1
    let step := if hc = 1 then cfg.speed_initial
                else cfg.speed + cfg.accel_rate * (hc : ℚ)
    activity_ping cfg now
      { c with
        s := { c.s with hold_count_down := hc, value := max 0 (c.s.value - step) }
        changed := true }
  else .ok { c with s := { c.s with hold_count_down := 0 } }

/-- Up-pin evaluation (lines 111–119). -/
def updUp (cfg : SliderConfig) (up : Bool) (now : ℚ) (c : Ctx) :
    Except Ctx Ctx :=
  if up then
    let hc := c.s.hold_count_up + 1
    let step := if hc = 1 then cfg.speed_initial
                else cfg.speed + cfg.accel_rate * (hc : ℚ)
    activity_ping cfg now
      { c with
        s := { c.s with hold_count_up := hc, value := min 127 (c.s.value + step) }
        changed := true }
  else .ok { c with s := { c.s with hold_count_up := 0 } }

/-- Value emission (lines 121–129): if anything changed and the
truncated value differs from the last sent value, send it. -/
def updEmit (cfg : SliderConfig) (now : ℚ) (c : Ctx) : Except Ctx Ctx :=
  if c.changed then
    let nv := pyInt c.s.value
    if nv ≠ c.s.last_sent_value then
      match trySend cfg.cc_number nv c with
      | .error c => .error c
      | .ok c =>
        activity_ping cfg now { c with s := { c.s with last_sent_value := nv } }
    else .ok c
  else .ok c

/-- Sequencing that propagates a raised exception. -/
def bindE (e : Except Ctx Ctx) (f : Ctx → Except Ctx Ctx) : Except Ctx Ctx :=
  match e with
  | .error c => .error c
  | .ok c => f c

/-- Body of the `try` block of `TouchSlider.update` (lines 77–130),
given the two debounced pin values. -/
def sliderUpdateE (cfg : SliderConfig) (down up : Bool) (now : ℚ) (c : Ctx) :
    Except Ctx Ctx :=
  if down && up then updBoth cfg now c
  else
    bindE (updRelease cfg now c) (fun c =>
      bindE (updDown cfg down now c) (fun c =>
        bindE (updUp cfg up now c) (fun c => updEmit cfg now c)))

/-- `TouchSlider.update`: returns the new state, the successful
emissions, and the returned `changed` boolean.  An exception anywhere in
the body is caught and sets `enabled := False` (lines 131–134). -/
def sliderUpdate (cfg : SliderConfig) (down up : Bool) (now : ℚ)
    (left : Option ℕ) (s : Slider) : Slider × List (ℕ × ℤ) × Bool :=
  if s.enabled then
    match sliderUpdateE cfg down up now ⟨s, [], left, false⟩ with
    | .ok c => (c.s, c.ems, c.changed)
    | .error c => ({ c.s with enabled := false }, c.ems, c.changed)
  else (s, [], false)

/-- One MPR121 board: address plus the result of reading
`touched_pins` (`none` models a raised I2C exception). -/
structure Board where
  addr : ℕ
  touched_pins : Option (List Bool)
deriving DecidableEq

/-- `TouchSlider.update_touch_cache` against the slider's own board. -/
def update_touch_cache (b : Board) (s : Slider) : Slider :=
  if s.enabled then
    match b.touched_pins with
    | some pins => { s with cached_touched_pins := pins }
    | none => { s with enabled := false }
  else s

/-- Inner loop of `update_touch_cache_for_all_boards` for one board:
refresh the first slider whose board matches, then `break`. -/
def update_cache_for_board (b : Board) : List Slider → List Slider
  | [] => []
  | s :: rest =>
    if s.mpr121 = b.addr then update_touch_cache b s :: rest
    else s :: update_cache_for_board b rest

/-- `update_touch_cache_for_all_boards` (lines 197–204). -/
def update_touch_cache_for_all_boards (boards : List Board)
    (sliders : List Slider) : List Slider :=
  boards.foldl (fun ss b => update_cache_for_board b ss) sliders

/-- Effect of one inbound `ControlChange(control, v)` on one slider
(`MIDIManager.receive_messages`, lines 33–44). -/
def receive_slider (control v : ℕ) (cfg : SliderConfig) (s : Slider) : Slider :=
  if control = cfg.cc_number then
    { s with value := (v : ℚ), last_sent_value := (v : ℤ) }
  else if some control = cfg.both_press_cc then
    { s with both_pressed := decide (64 ≤ v) }
  else s

/-- One inbound message applied to every slider. -/
def receive_message (control v : ℕ)
    (sliders : List (SliderConfig × Slider)) : List (SliderConfig × Slider) :=
  sliders.map (fun p => (p.1, receive_slider control v p.1 p.2))

/-- Configuration of the all-both-press toggle
(`ALL_BOTH_PRESS_*` values read in `AllBothPressManager.__init__`). -/
structure ABPConfig where
  enabled : Bool
  cc_number : ℕ
  stable_time : ℚ
  min_duration : ℚ
  max_duration : ℚ
  cooldown : ℚ
deriving DecidableEq

/-- Mutable state of `AllBothPressManager`. -/
structure ABPState where
  enabled : Bool
  all_both_pressed : Bool
  toggle_active : Bool
  stable_start_time : Option ℚ
  toggle_start_time : Option ℚ
  last_trigger_time : ℚ
deriving DecidableEq

/-- `AllBothPressManager.__init__` (state-tracking fields, lines 34–38). -/
def abp_init (cfg : ABPConfig) : ABPState :=
  { enabled := cfg.enabled
    all_both_pressed := false
    toggle_active := false
    stable_start_time := none
    toggle_start_time := none
    last_trigger_time := -cfg.cooldown }

/-- `AllBothPressManager.update` (lines 47–123): returns the new state,
the attempted emissions, and the returned boolean. -/
def abp_update (cfg : ABPConfig) (sliders : List Slider) (now : ℚ)
    (m : ABPState) : ABPState × List (ℕ × ℤ) × Bool :=
  if !m.enabled || sliders.isEmpty then (m, [], false)
  else
    let enabled_sliders := sliders.filter (fun s => s.enabled)
    if enabled_sliders.isEmpty then (m, [], false)
    else
      let all_now := enabled_sliders.all (fun s => s.both_pressed)
      let m :=
        if all_now ≠ m.all_both_pressed then
          { m with
            all_both_pressed := all_now
            stable_start_time := if all_now then some now else none }
        else m
      let stable_ok :=
        match m.stable_start_time with
        | some st => decide (cfg.stable_time ≤ now - st)
        | none => false
      if m.all_both_pressed && !m.toggle_active && stable_ok &&
          decide (cfg.cooldown ≤ now - m.last_trigger_time) then
        ({ m with
            toggle_active := true
            toggle_start_time := some now
            last_trigger_time := now },
          [(cfg.cc_number, 127)], true)
      else if m.toggle_active then
        let toggle_duration := now - (m.toggle_start_time.getD 0)
        if (decide (cfg.min_duration ≤ toggle_duration) && !m.all_both_pressed) ||
            decide (cfg.max_duration ≤ toggle_duration) then
          ({ m with toggle_active := false, toggle_start_time := none },
            [(cfg.cc_number, 0)], true)
        else (m, [], false)
      else (m, [], false)

/-- Value of `LED_CALIBRATION_DELAY` in `config.py`. -/
def LED_CALIBRATION_DELAY : ℚ := 20

/-- Value of `LED_CALIBRATION_ENABLED` in `config.py`. -/
def LED_CALIBRATION_ENABLED : Bool := true

/-- State of `LEDCalibrationManager` (`mpr121_manager.py`, lines 41–78). -/
structure LEDCal where
  first_midi_received : Bool
  first_midi_time : Option ℚ
  led_calibration_triggered : Bool
  led_calibration_completed : Bool
deriving DecidableEq

/-- `LEDCalibrationManager.__init__`. -/
def ledcal_init : LEDCal :=
  { first_midi_received := false
    first_midi_time := none
    led_calibration_triggered := false
    led_calibration_completed := false }

/-- `LEDCalibrationManager.on_midi_received`. -/
def on_midi_received (now : ℚ) (m : LEDCal) : LEDCal :=
  if ¬ m.first_midi_received then
    { m with first_midi_received := true, first_midi_time := some now }
  else m

/-- `LEDCalibrationManager.should_trigger_led_calibration`. -/
def should_trigger_led_calibration (now : ℚ) (m : LEDCal) : Bool :=
  if ¬ LED_CALIBRATION_ENABLED then false
  else if m.led_calibration_triggered ∨ m.led_calibration_completed then false
  else
    match m.first_midi_received, m.first_midi_time with
    | true, some t => decide (LED_CALIBRATION_DELAY ≤ now - t)
    | _, _ => false

/-- `LEDCalibrationManager.mark_led_calibration_triggered`. -/
def mark_led_calibration_triggered (m : LEDCal) : LEDCal :=
  { m with led_calibration_triggered := true }

/-- `LEDCalibrationManager.mark_led_calibration_completed`. -/
def mark_led_calibration_completed (m : LEDCal) : LEDCal :=
  { m with led_calibration_completed := true }

/-! Concrete instances used by scenario theorems and witnesses. -/

/-- First slider entry of `SLIDERS` in `config.py` (board 0x1A = 26). -/
def cfg3 : SliderConfig :=
  { mpr121_address := 26, down_pin := 0, up_pin := 1, cc_number := 3
    both_press_cc := some 9, initial_value := 64, speed_initial := 1
    speed := 1, accel_rate := 1/10, activity_channel_cc := some 100 }

/-- Freshly constructed slider for `cfg3`. -/
def s30 : Slider := TouchSlider_init cfg3 0

/-- State after the first tick with the up pin stably pressed. -/
def c3_s1 : Slider × List (ℕ × ℤ) × Bool := sliderUpdate cfg3 false true 0 none s30

/-- State after the second such tick. -/
def c3_s2 : Slider × List (ℕ × ℤ) × Bool :=
  sliderUpdate cfg3 false true 0 none c3_s1.1

/-- State after the third such tick. -/
def c3_s3 : Slider × List (ℕ × ℤ) × Bool :=
  sliderUpdate cfg3 false true 0 none c3_s2.1

/-- A board snapshot with pin 0 touched. -/
def demo_pins : List Bool := true :: List.replicate 11 false

/-- Board 0x1A reporting `demo_pins`. -/
def demo_board : Board := { addr := 26, touched_pins := some demo_pins }

/-- Board 0x1A whose `touched_pins` read raises. -/
def demo_board_fail : Board := { addr := 26, touched_pins := none }

/-- Slider configuration whose first-touch step is 0.4, exhibiting the
truncation-versus-rounding difference in the emission guard. -/
def cfg6 : SliderConfig :=
  { mpr121_address := 26, down_pin := 0, up_pin := 1, cc_number := 3
    both_press_cc := some 9, initial_value := 64, speed_initial := 2/5
    speed := 1, accel_rate := 1/10, activity_channel_cc := some 100 }

/-- Slider at value 67 with 67 as the last emitted value. -/
def s6 : Slider :=
  { TouchSlider_init cfg6 0 with
    value := 67, last_sent_value := 67, activity_on := true }

/-- Slider whose activity channel is already on (so the only send a
down-tick attempts is the value emission). -/
def s4b : Slider := { TouchSlider_init cfg3 0 with activity_on := true }

/-- All-both-press configuration named in the spec's hysteresis
property: stable 3 s, min 10 s, max 30 s, cooldown 60 s. -/
def cfg7 : ABPConfig :=
  { enabled := true, cc_number := 10, stable_time := 3
    min_duration := 10, max_duration := 30, cooldown := 60 }

/-- An enabled slider currently in the both-pressed state. -/
def sBoth : Slider := { TouchSlider_init cfg3 0 with both_pressed := true }

/-- Manager state: gesture stable since t = 0, toggle idle, cooldown
long expired. -/
def m1 : ABPState :=
  { enabled := true, all_both_pressed := true, toggle_active := false
    stable_start_time := some 0, toggle_start_time := none
    last_trigger_time := -60 }

/-- Manager state: toggle activated at t = 3. -/
def m2 : ABPState :=
  { enabled := true, all_both_pressed := true, toggle_active := true
    stable_start_time := none, toggle_start_time := some 3
    last_trigger_time := 3 }

/-- Manager state: like `m1` but with a recent trigger at t = 1. -/
def m5 : ABPState := { m1 with last_trigger_time := 1 }

/-- Value-channel bookkeeping before the emission step of a tick that
started from last-sent value `L` with no emissions yet: transport
healthy, no value-channel emission so far, `last_sent_value`
untouched. -/
def PreC (cfg : SliderConfig) (L : ℤ) (c : Ctx) : Prop :=
  c.left = none ∧
  c.ems.filter (fun e => e.1 = cfg.cc_number) = [] ∧
  c.s.last_sent_value = L

/-- Value-channel bookkeeping at the end of such a tick: either no
value-channel emission happened and `last_sent_value` is untouched, or
exactly one happened, carrying the truncated current value, which
differs from `L` and is the new `last_sent_value`. -/
def PostC (cfg : SliderConfig) (L : ℤ) (c : Ctx) : Prop :=
  (c.ems.filter (fun e => e.1 = cfg.cc_number) = [] ∧
    c.s.last_sent_value = L) ∨
  (c.ems.filter (fun e => e.1 = cfg.cc_number)
      = [(cfg.cc_number, pyInt c.s.value)] ∧
    pyInt c.s.value ≠ L ∧ c.s.last_sent_value = pyInt c.s.value)

/-- A step is healthy-total when, on a healthy transport, it succeeds,
keeps the transport healthy and only appends emissions. -/
def MonoF (f : Ctx → Except Ctx Ctx) : Prop :=
  ∀ c, c.left = none → ∃ d rest, f c = .ok d ∧ d.left = none ∧
    d.ems = c.ems ++ rest

/-- Simulation between the run of a step on a budget of `k` successful
sends and its run on a healthy transport, from the same slider state,
`changed` flag and emission log: either the budgeted run also succeeds,
with the same outcome apart from the remaining budget (which dropped by
the number of sends performed), or it raises after performing exactly
`k` sends, which form a prefix of the healthy run's emission log. -/
def SimF (f : Ctx → Except Ctx Ctx) : Prop :=
  ∀ (k : ℕ) (sl : Slider) (ch : Bool) (e : List (ℕ × ℤ)),
    (∃ d₀ k', f ⟨sl, e, none, ch⟩ = .ok d₀ ∧ d₀.left = none ∧
        f ⟨sl, e, some k, ch⟩ = .ok { d₀ with left := some k' } ∧
        k' ≤ k ∧ d₀.ems.length = e.length + (k - k')) ∨
    (∃ d₀ d₁ rest, f ⟨sl, e, none, ch⟩ = .ok d₀ ∧ d₀.left = none ∧
        f ⟨sl, e, some k, ch⟩ = .error d₁ ∧
        d₁.ems.length = e.length + k ∧ d₀.ems = d₁.ems ++ rest)

/-!  Helper lemmas. -/

/-- Context carried by either outcome of a fallible step. -/
def exCtx : Except Ctx Ctx → Ctx
  | .ok c => c
  | .error c => c

/-- Bounds invariant on the slider value. -/
def ValB (c : Ctx) : Prop := 0 ≤ c.s.value ∧ c.s.value ≤ 127

/-- `trySend` never modifies the slider state or the `changed` flag. -/
lemma trySend_state (cc : ℕ) (v : ℤ) (c : Ctx) :
    (exCtx (trySend cc v c)).s = c.s ∧
      (exCtx (trySend cc v c)).changed = c.changed := by
  unfold trySend exCtx
  rcases c.left with _ | (_ | n) <;> simp

/-- `activity_ping` only touches `last_activity_time` and
`activity_on`; every other state field and the `changed` flag are
preserved. -/
lemma activity_ping_state (cfg : SliderConfig) (now : ℚ) (c : Ctx) :
    (exCtx (activity_ping cfg now c)).s.value = c.s.value ∧
    (exCtx (activity_ping cfg now c)).s.last_sent_value = c.s.last_sent_value ∧
    (exCtx (activity_ping cfg now c)).s.both_pressed = c.s.both_pressed ∧
    (exCtx (activity_ping cfg now c)).s.hold_count_down = c.s.hold_count_down ∧
    (exCtx (activity_ping cfg now c)).s.hold_count_up = c.s.hold_count_up ∧
    (exCtx (activity_ping cfg now c)).s.enabled = c.s.enabled ∧
    (exCtx (activity_ping cfg now c)).changed = c.changed := by
  unfold activity_ping trySend exCtx
  rcases cfg.activity_channel_cc with _ | acc <;>
    rcases c.left with _ | (_ | n) <;>
    by_cases hA : c.s.activity_on <;>
    simp [hA]

/-- The both-pressed branch never touches `value` or the hold
counters. -/
lemma updBoth_state (cfg : SliderConfig) (now : ℚ) (c : Ctx) :
    (exCtx (updBoth cfg now c)).s.value = c.s.value ∧
    (exCtx (updBoth cfg now c)).s.hold_count_down = c.s.hold_count_down ∧
    (exCtx (updBoth cfg now c)).s.hold_count_up = c.s.hold_count_up := by
  unfold updBoth
  by_cases hB : c.s.both_pressed
  · simp [hB, exCtx]
  · rw [if_neg hB]
    rcases cfg.both_press_cc with _ | bcc
    · simp [exCtx]
    · dsimp only
      cases hT : trySend bcc 127 c with
      | error c₂ =>
        have h₂ := trySend_state bcc 127 c
        rw [hT] at h₂
        simp only [exCtx] at h₂
        simp [exCtx, h₂.1]
      | ok c₂ =>
        have h₂ := trySend_state bcc 127 c
        rw [hT] at h₂
        simp only [exCtx] at h₂
        dsimp only
        have h₃ := activity_ping_state cfg now
          { s := { c₂.s with both_pressed := true }
            ems := c₂.ems, left := c₂.left, changed := true }
        refine ⟨?_, ?_, ?_⟩
        · rw [h₃.1]; simp [h₂.1]
        · rw [h₃.2.2.2.1]; simp [h₂.1]
        · rw [h₃.2.2.2.2.1]; simp [h₂.1]

/-- Transport of a predicate through `bindE`. -/
lemma bindE_pred (P : Ctx → Prop) (e : Except Ctx Ctx)
    (f : Ctx → Except Ctx Ctx) (he : P (exCtx e))
    (hf : ∀ c, P c → P (exCtx (f c))) : P (exCtx (bindE e f)) := by
  cases e with
  | error c => simpa [bindE, exCtx] using he
  | ok c => simpa [bindE, exCtx] using hf c (by simpa [exCtx] using he)

/-- The both-press-release step never touches `value`,
`last_sent_value` or the hold counters. -/
lemma updRelease_state (cfg : SliderConfig) (now : ℚ) (c : Ctx) :
    (exCtx (updRelease cfg now c)).s.value = c.s.value ∧
    (exCtx (updRelease cfg now c)).s.last_sent_value = c.s.last_sent_value ∧
    (exCtx (updRelease cfg now c)).s.hold_count_down = c.s.hold_count_down ∧
    (exCtx (updRelease cfg now c)).s.hold_count_up = c.s.hold_count_up := by
  unfold updRelease
  by_cases hB : c.s.both_pressed
  · rw [if_pos hB]
    rcases cfg.both_press_cc with _ | bcc
    · simp [exCtx]
    · dsimp only
      cases hT : trySend bcc 0 c with
      | error c₂ =>
        have h₂ := trySend_state bcc 0 c
        rw [hT] at h₂
        simp only [exCtx] at h₂
        simp [exCtx, h₂.1]
      | ok c₂ =>
        have h₂ := trySend_state bcc 0 c
        rw [hT] at h₂
        simp only [exCtx] at h₂
        dsimp only
        have h₃ := activity_ping_state cfg now
          { s := { c₂.s with both_pressed := false }
            ems := c₂.ems, left := c₂.left, changed := true }
        refine ⟨?_, ?_, ?_, ?_⟩
        · rw [h₃.1]; simp [h₂.1]
        · rw [h₃.2.1]; simp [h₂.1]
        · rw [h₃.2.2.2.1]; simp [h₂.1]
        · rw [h₃.2.2.2.2.1]; simp [h₂.1]
  · simp [hB, exCtx]

/-- The emission step never touches `value`. -/
lemma updEmit_value (cfg : SliderConfig) (now : ℚ) (c : Ctx) :
    (exCtx (updEmit cfg now c)).s.value = c.s.value := by
  unfold updEmit
  by_cases hC : c.changed
  · rw [if_pos hC]
    dsimp only
    by_cases hN : pyInt c.s.value ≠ c.s.last_sent_value
    · rw [if_pos hN]
      cases hT : trySend cfg.cc_number (pyInt c.s.value) c with
      | error c₂ =>
        have h₂ := trySend_state cfg.cc_number (pyInt c.s.value) c
        rw [hT] at h₂
        simp only [exCtx] at h₂
        simp [exCtx, h₂.1]
      | ok c₂ =>
        have h₂ := trySend_state cfg.cc_number (pyInt c.s.value) c
        rw [hT] at h₂
        simp only [exCtx] at h₂
        dsimp only
        refine Eq.trans ((activity_ping_state cfg now _).1) ?_
        simp [h₂.1]
    · rw [if_neg hN]
      simp [exCtx]
  · rw [if_neg hC]
    simp [exCtx]

/-- `activity_ping` preserves the bounds invariant. -/
lemma ping_ValB (cfg : SliderConfig) (now : ℚ) (c : Ctx) (h : ValB c) :
    ValB (exCtx (activity_ping cfg now c)) := by
  have hp := activity_ping_state cfg now c
  exact ⟨by rw [hp.1]; exact h.1, by rw [hp.1]; exact h.2⟩

/-- Nonnegativity of the per-tick step. -/
lemma step_nonneg (cfg : SliderConfig) (n : ℕ) (h1 : 0 ≤ cfg.speed_initial)
    (h2 : 0 ≤ cfg.speed) (h3 : 0 ≤ cfg.accel_rate) :
    0 ≤ (if n = 1 then cfg.speed_initial
         else cfg.speed + cfg.accel_rate * (n : ℚ)) := by
  split
  · exact h1
  · have : 0 ≤ cfg.accel_rate * (n : ℚ) :=
      mul_nonneg h3 (Nat.cast_nonneg n)
    linarith

/-- The down step keeps `value` within bounds when all step parameters
are nonnegative. -/
lemma updDown_bounds (cfg : SliderConfig) (down : Bool) (now : ℚ) (c : Ctx)
    (h1 : 0 ≤ cfg.speed_initial) (h2 : 0 ≤ cfg.speed)
    (h3 : 0 ≤ cfg.accel_rate) (hc : ValB c) :
    ValB (exCtx (updDown cfg down now c)) := by
  unfold updDown
  cases down with
  | false => exact ⟨hc.1, hc.2⟩
  | true =>
    dsimp only
    apply ping_ValB
    have hstep := step_nonneg cfg (c.s.hold_count_down + 1) h1 h2 h3
    constructor
    · exact le_max_left 0 _
    · refine max_le (by norm_num) ?_
      have hv := hc.2
      linarith

/-- The up step keeps `value` within bounds when all step parameters
are nonnegative. -/
lemma updUp_bounds (cfg : SliderConfig) (up : Bool) (now : ℚ) (c : Ctx)
    (h1 : 0 ≤ cfg.speed_initial) (h2 : 0 ≤ cfg.speed)
    (h3 : 0 ≤ cfg.accel_rate) (hc : ValB c) :
    ValB (exCtx (updUp cfg up now c)) := by
  unfold updUp
  cases up with
  | false => exact ⟨hc.1, hc.2⟩
  | true =>
    dsimp only
    apply ping_ValB
    have hstep := step_nonneg cfg (c.s.hold_count_up + 1) h1 h2 h3
    constructor
    · refine le_min (by norm_num) ?_
      have hv := hc.1
      linarith
    · exact min_le_left 127 _

/-- A list with a member is not empty. -/
lemma isEmpty_false_of_mem {sliders : List Slider} {s : Slider}
    (hs : s ∈ sliders) : sliders.isEmpty = false := by
  cases sliders with
  | nil => simp at hs
  | cons a l => rfl

/-- If some slider is enabled, the enabled filter is nonempty. -/
lemma filter_enabled_isEmpty_false (sliders : List Slider)
    (h : ∃ s ∈ sliders, s.enabled = true) :
    (sliders.filter (fun s => s.enabled)).isEmpty = false := by
  obtain ⟨s, hs, he⟩ := h
  exact isEmpty_false_of_mem (List.mem_filter.mpr ⟨hs, by simp [he]⟩)

/-- If every enabled slider is both-pressed, the aggregate AND is
true. -/
lemma filter_all_both (sliders : List Slider)
    (h : ∀ s ∈ sliders, s.enabled = true → s.both_pressed = true) :
    (sliders.filter (fun s => s.enabled)).all (fun s => s.both_pressed)
      = true := by
  rw [List.all_eq_true]
  intro s hs
  have hm := List.mem_filter.mp hs
  exact h s hm.1 (by simpa using hm.2)

/-- If some enabled slider is not both-pressed, the aggregate AND is
false. -/
lemma filter_all_both_false (sliders : List Slider)
    (h : ∃ s ∈ sliders, s.enabled = true ∧ s.both_pressed = false) :
    (sliders.filter (fun s => s.enabled)).all (fun s => s.both_pressed)
      = false := by
  obtain ⟨s, hs, he, hb⟩ := h
  rw [Bool.eq_false_iff]
  intro hall
  rw [List.all_eq_true] at hall
  have := hall s (List.mem_filter.mpr ⟨hs, by simp [he]⟩)
  rw [hb] at this
  exact Bool.false_ne_true this

/-- `update_touch_cache` never changes the board a slider is attached
to. -/
lemma update_touch_cache_mpr (b : Board) (s : Slider) :
    (update_touch_cache b s).mpr121 = s.mpr121 := by
  unfold update_touch_cache
  by_cases he : s.enabled = true
  · rcases hb : b.touched_pins with _ | pins <;> simp [he, hb]
  · simp [he]

/-- The per-board refresh loop preserves the board-assignment map. -/
lemma ucb_map_mpr (b : Board) (ss : List Slider) :
    (update_cache_for_board b ss).map Slider.mpr121
      = ss.map Slider.mpr121 := by
  induction ss with
  | nil => rfl
  | cons s t ih =>
    unfold update_cache_for_board
    by_cases h : s.mpr121 = b.addr
    · simp [h, update_touch_cache_mpr]
    · simp [h, ih]

/-- Non-interference of the per-board refresh loop: the outcome at
index `j` depends only on the entry at `j` and the (immutable)
board-assignment map, not on the other sliders' states. -/
lemma ucb_agree (b : Board) :
    ∀ (ss ss' : List Slider) (j : ℕ),
      ss.map Slider.mpr121 = ss'.map Slider.mpr121 → ss[j]? = ss'[j]? →
      (update_cache_for_board b ss)[j]?
        = (update_cache_for_board b ss')[j]? := by
  intro ss
  induction ss with
  | nil =>
    intro ss' j hmap hj
    cases ss' with
    | nil => rfl
    | cons a l => simp at hmap
  | cons s t ih =>
    intro ss' j hmap hj
    cases ss' with
    | nil => simp at hmap
    | cons s₂ t₂ =>
      simp only [List.map_cons, List.cons.injEq] at hmap
      obtain ⟨hm, ht⟩ := hmap
      unfold update_cache_for_board
      by_cases h : s.mpr121 = b.addr
      · have h₂ : s₂.mpr121 = b.addr := by rw [← hm]; exact h
        rw [if_pos h, if_pos h₂]
        cases j with
        | zero =>
          have hss : s = s₂ := by simpa using hj
          rw [hss]
          simp
        | succ n => simpa using hj
      · have h₂ : ¬ s₂.mpr121 = b.addr := by rw [← hm]; exact h
        rw [if_neg h, if_neg h₂]
        cases j with
        | zero => simpa using hj
        | succ n =>
          simp only [List.getElem?_cons_succ]
          exact ih t₂ n ht (by simpa using hj)

/-- Non-interference of the whole refresh step across all boards. -/
lemma all_boards_agree (boards : List Board) :
    ∀ (ss ss' : List Slider) (j : ℕ),
      ss.map Slider.mpr121 = ss'.map Slider.mpr121 → ss[j]? = ss'[j]? →
      (update_touch_cache_for_all_boards boards ss)[j]?
        = (update_touch_cache_for_all_boards boards ss')[j]? := by
  induction boards with
  | nil =>
    intro ss ss' j hm hj
    simpa [update_touch_cache_for_all_boards] using hj
  | cons b bs ih =>
    intro ss ss' j hm hj
    show (update_touch_cache_for_all_boards bs (update_cache_for_board b ss))[j]?
      = (update_touch_cache_for_all_boards bs (update_cache_for_board b ss'))[j]?
    exact ih _ _ j (by rw [ucb_map_mpr, ucb_map_mpr, hm])
      (ucb_agree b ss ss' j hm hj)

/-- `activity_ping` can only append an activity-channel emission, so
when the activity channel differs from the value channel it leaves the
value-channel filtrate (and the transport budget) unchanged. -/
lemma ping_filter (cfg : SliderConfig) (now : ℚ)
    (hA : cfg.activity_channel_cc ≠ some cfg.cc_number) (c : Ctx) :
    (exCtx (activity_ping cfg now c)).ems.filter
        (fun e => e.1 = cfg.cc_number)
      = c.ems.filter (fun e => e.1 = cfg.cc_number) := by
  unfold activity_ping trySend exCtx
  rcases hacc : cfg.activity_channel_cc with _ | acc
  · simp
  · have hacc' : ¬ (acc = cfg.cc_number) := fun he => hA (by rw [hacc, he])
    rcases hL : c.left with _ | (_ | n) <;>
      by_cases hOn : c.s.activity_on = true <;>
      simp [hL, hOn, hacc']

/-- `activity_ping` keeps a healthy transport healthy. -/
lemma ping_left (cfg : SliderConfig) (now : ℚ) (c : Ctx)
    (hL : c.left = none) :
    (exCtx (activity_ping cfg now c)).left = none := by
  unfold activity_ping trySend exCtx
  rcases hacc : cfg.activity_channel_cc with _ | acc <;>
    by_cases hOn : c.s.activity_on = true <;>
    simp [hL, hOn]

/-- `PreC` is preserved by `activity_ping`. -/
lemma pre_ping (cfg : SliderConfig) (L : ℤ) (now : ℚ)
    (hA : cfg.activity_channel_cc ≠ some cfg.cc_number) (c : Ctx)
    (h : PreC cfg L c) : PreC cfg L (exCtx (activity_ping cfg now c)) := by
  obtain ⟨hL, hF, hS⟩ := h
  have hp := ping_filter cfg now hA c
  have hs := activity_ping_state cfg now c
  exact ⟨ping_left cfg now c hL, hp.trans hF, hs.2.1.trans hS⟩

/-- After a successful value emission, `activity_ping` preserves the
one-emission `PostC` shape. -/
lemma ping_post (cfg : SliderConfig) (L : ℤ) (now : ℚ)
    (hA : cfg.activity_channel_cc ≠ some cfg.cc_number) (c : Ctx)
    (h1 : c.ems.filter (fun e => e.1 = cfg.cc_number)
        = [(cfg.cc_number, pyInt c.s.value)])
    (h2 : pyInt c.s.value ≠ L)
    (h3 : c.s.last_sent_value = pyInt c.s.value) :
    PostC cfg L (exCtx (activity_ping cfg now c)) := by
  have hp := ping_filter cfg now hA c
  have hs := activity_ping_state cfg now c
  refine Or.inr ⟨?_, ?_, ?_⟩
  · rw [hp, hs.1]
    exact h1
  · rw [hs.1]
    exact h2
  · rw [hs.2.1, hs.1]
    exact h3

/-- `PreC` is preserved by the both-pressed branch when the both-press
channel differs from the value channel. -/
lemma pre_updBoth (cfg : SliderConfig) (L : ℤ) (now : ℚ)
    (hB : cfg.both_press_cc ≠ some cfg.cc_number)
    (hA : cfg.activity_channel_cc ≠ some cfg.cc_number) (c : Ctx)
    (h : PreC cfg L c) : PreC cfg L (exCtx (updBoth cfg now c)) := by
  obtain ⟨hL, hF, hS⟩ := h
  unfold updBoth
  by_cases hP : c.s.both_pressed = true
  · rw [if_pos hP]
    exact ⟨hL, hF, hS⟩
  · rw [if_neg hP]
    rcases hbc : cfg.both_press_cc with _ | bcc
    · exact ⟨hL, hF, hS⟩
    · have hbc' : ¬ (bcc = cfg.cc_number) := fun he => hB (by rw [hbc, he])
      dsimp only
      unfold trySend
      rw [hL]
      dsimp only
      apply pre_ping cfg L now hA
      refine ⟨rfl, ?_, hS⟩
      simp [hbc', hF]

/-- `PreC` is preserved by the both-press-release step. -/
lemma pre_updRelease (cfg : SliderConfig) (L : ℤ) (now : ℚ)
    (hB : cfg.both_press_cc ≠ some cfg.cc_number)
    (hA : cfg.activity_channel_cc ≠ some cfg.cc_number) (c : Ctx)
    (h : PreC cfg L c) : PreC cfg L (exCtx (updRelease cfg now c)) := by
  obtain ⟨hL, hF, hS⟩ := h
  unfold updRelease
  by_cases hP : c.s.both_pressed = true
  · rw [if_pos hP]
    rcases hbc : cfg.both_press_cc with _ | bcc
    · exact ⟨hL, hF, hS⟩
    · have hbc' : ¬ (bcc = cfg.cc_number) := fun he => hB (by rw [hbc, he])
      dsimp only
      unfold trySend
      rw [hL]
      dsimp only
      apply pre_ping cfg L now hA
      refine ⟨rfl, ?_, hS⟩
      simp [hbc', hF]
  · rw [if_neg hP]
    exact ⟨hL, hF, hS⟩

/-- `PreC` is preserved by the down step. -/
lemma pre_updDown (cfg : SliderConfig) (L : ℤ) (down : Bool) (now : ℚ)
    (hA : cfg.activity_channel_cc ≠ some cfg.cc_number) (c : Ctx)
    (h : PreC cfg L c) : PreC cfg L (exCtx (updDown cfg down now c)) := by
  obtain ⟨hL, hF, hS⟩ := h
  unfold updDown
  cases down with
  | false => exact ⟨hL, hF, hS⟩
  | true =>
    dsimp only
    exact pre_ping cfg L now hA _ ⟨hL, hF, hS⟩

/-- `PreC` is preserved by the up step. -/
lemma pre_updUp (cfg : SliderConfig) (L : ℤ) (up : Bool) (now : ℚ)
    (hA : cfg.activity_channel_cc ≠ some cfg.cc_number) (c : Ctx)
    (h : PreC cfg L c) : PreC cfg L (exCtx (updUp cfg up now c)) := by
  obtain ⟨hL, hF, hS⟩ := h
  unfold updUp
  cases up with
  | false => exact ⟨hL, hF, hS⟩
  | true =>
    dsimp only
    exact pre_ping cfg L now hA _ ⟨hL, hF, hS⟩

/-- The emission step turns `PreC` into `PostC`: it emits on the value
channel exactly when something changed and the truncated value differs
from the last sent value, updating `last_sent_value` to the emitted
integer. -/
lemma post_updEmit (cfg : SliderConfig) (L : ℤ) (now : ℚ)
    (hA : cfg.activity_channel_cc ≠ some cfg.cc_number) (c : Ctx)
    (h : PreC cfg L c) : PostC cfg L (exCtx (updEmit cfg now c)) := by
  obtain ⟨hL, hF, hS⟩ := h
  unfold updEmit
  by_cases hC : c.changed = true
  · rw [if_pos hC]
    dsimp only
    by_cases hN : pyInt c.s.value ≠ c.s.last_sent_value
    · rw [if_pos hN]
      unfold trySend
      rw [hL]
      dsimp only
      apply ping_post cfg L now hA
      · show (c.ems ++ [(cfg.cc_number, pyInt c.s.value)]).filter
            (fun e => e.1 = cfg.cc_number) = _
        simp [hF]
      · show pyInt c.s.value ≠ L
        rw [← hS]
        exact hN
      · rfl
    · rw [if_neg hN]
      exact Or.inl ⟨hF, hS⟩
  · rw [if_neg hC]
    exact Or.inl ⟨hF, hS⟩

/-- Two-predicate transport through `bindE`. -/
lemma bindE_pred₂ (P Q : Ctx → Prop) (e : Except Ctx Ctx)
    (f : Ctx → Except Ctx Ctx) (he : P (exCtx e))
    (hf : ∀ c, P c → Q (exCtx (f c))) (herr : ∀ c, P c → Q c) :
    Q (exCtx (bindE e f)) := by
  cases e with
  | error c => exact herr c (by simpa [exCtx] using he)
  | ok c => simpa [bindE, exCtx] using hf c (by simpa [exCtx] using he)

/-- A send followed by a healthy-total continuation is healthy-total. -/
lemma mono_send (cc : ℕ) (v : ℤ) (rest : Ctx → Except Ctx Ctx)
    (hM : MonoF rest) :
    MonoF (fun c => match trySend cc v c with
      | .error d => .error d
      | .ok d => rest d) := by
  intro c hl
  obtain ⟨d, r, hok, hld, hems⟩ := hM { c with ems := c.ems ++ [(cc, v)] } hl
  have hts : trySend cc v c = .ok { c with ems := c.ems ++ [(cc, v)] } := by
    unfold trySend
    rw [hl]
  refine ⟨d, [(cc, v)] ++ r, ?_, hld, ?_⟩
  · dsimp only
    rw [hts]
    exact hok
  · rw [hems]
    simp

/-- Simulation for a send followed by a simulating continuation. -/
lemma sim_send (cc : ℕ) (v : ℤ) (rest : Ctx → Except Ctx Ctx)
    (hS : SimF rest) (hM : MonoF rest) :
    SimF (fun c => match trySend cc v c with
      | .error d => .error d
      | .ok d => rest d) := by
  intro k sl ch e
  cases k with
  | zero =>
    obtain ⟨d, r, hok, hld, hems⟩ := hM ⟨sl, e ++ [(cc, v)], none, ch⟩ rfl
    refine Or.inr ⟨d, ⟨sl, e, some 0, ch⟩, [(cc, v)] ++ r, ?_, hld, rfl, by simp, ?_⟩
    · exact hok
    · rw [hems]
      simp
  | succ m =>
    rcases hS m sl ch (e ++ [(cc, v)]) with
      ⟨d₀, k', h₀, hl, h₁, hk, hlen⟩ | ⟨d₀, d₁, r, h₀, hl, h₁, hlen, hpre⟩
    · refine Or.inl ⟨d₀, k', ?_, hl, ?_, hk.trans (Nat.le_succ m), ?_⟩
      · exact h₀
      · exact h₁
      · simp only [List.length_append, List.length_cons, List.length_nil] at hlen
        omega
    · refine Or.inr ⟨d₀, d₁, r, ?_, hl, ?_, ?_, hpre⟩
      · exact h₀
      · exact h₁
      · simp only [List.length_append, List.length_cons, List.length_nil] at hlen
        omega

/-- `activity_ping` is healthy-total. -/
lemma mono_ping (cfg : SliderConfig) (now : ℚ) :
    MonoF (activity_ping cfg now) := by
  intro c hl
  unfold activity_ping trySend
  dsimp only
  rcases cfg.activity_channel_cc with _ | acc
  · exact ⟨_, [], rfl, hl, by simp⟩
  · dsimp only
    by_cases hOn : c.s.activity_on = true
    · rw [if_pos hOn]
      exact ⟨_, [], rfl, hl, by simp⟩
    · rw [if_neg hOn, hl]
      exact ⟨_, [(acc, 127)], rfl, rfl, rfl⟩

/-- `activity_ping` simulates. -/
lemma sim_ping (cfg : SliderConfig) (now : ℚ) :
    SimF (activity_ping cfg now) := by
  intro k sl ch e
  unfold activity_ping trySend
  dsimp only
  rcases cfg.activity_channel_cc with _ | acc
  · exact Or.inl ⟨_, k, rfl, rfl, rfl, le_refl k, by simp⟩
  · dsimp only
    by_cases hOn : sl.activity_on = true
    · rw [if_pos hOn, if_pos hOn]
      exact Or.inl ⟨_, k, rfl, rfl, rfl, le_refl k, by simp⟩
    · rw [if_neg hOn, if_neg hOn]
      cases k with
      | zero =>
        exact Or.inr ⟨_, _, [(acc, 127)], rfl, rfl, rfl, by simp, by simp⟩
      | succ m =>
        refine Or.inl ⟨_, m, rfl, rfl, rfl, Nat.le_succ m, ?_⟩
        simp only [List.length_append, List.length_cons, List.length_nil]
        omega

/-- Simulation for "pure state/changed modification, then activity
ping", the shape of every ping-ending branch of the update body. -/
lemma simf_modping (cfg : SliderConfig) (now : ℚ) (mod : Slider → Slider)
    (chf : Bool → Bool) :
    SimF (fun c => activity_ping cfg now
      { c with s := mod c.s, changed := chf c.changed }) :=
  fun k sl ch e => sim_ping cfg now k (mod sl) (chf ch) e

/-- Healthy-totality for the same shape. -/
lemma monof_modping (cfg : SliderConfig) (now : ℚ) (mod : Slider → Slider)
    (chf : Bool → Bool) :
    MonoF (fun c => activity_ping cfg now
      { c with s := mod c.s, changed := chf c.changed }) :=
  fun c hl =>
    mono_ping cfg now { c with s := mod c.s, changed := chf c.changed } hl

/-- The both-pressed branch simulates. -/
lemma simf_updBoth (cfg : SliderConfig) (now : ℚ) :
    SimF (updBoth cfg now) := by
  intro k sl ch e
  unfold updBoth
  dsimp only
  by_cases hP : sl.both_pressed = true
  · rw [if_pos hP, if_pos hP]
    exact Or.inl ⟨_, k, rfl, rfl, rfl, le_refl k, by simp⟩
  · rw [if_neg hP, if_neg hP]
    rcases cfg.both_press_cc with _ | bcc
    · exact Or.inl ⟨_, k, rfl, rfl, rfl, le_refl k, by simp⟩
    · dsimp only
      exact sim_send bcc 127 _
        (simf_modping cfg now (fun s => { s with both_pressed := true })
          (fun _ => true))
        (monof_modping cfg now (fun s => { s with both_pressed := true })
          (fun _ => true)) k sl ch e

/-- The both-pressed branch is healthy-total. -/
lemma monof_updBoth (cfg : SliderConfig) (now : ℚ) :
    MonoF (updBoth cfg now) := by
  intro c hl
  unfold updBoth
  by_cases hP : c.s.both_pressed = true
  · rw [if_pos hP]
    exact ⟨c, [], rfl, hl, by simp⟩
  · rw [if_neg hP]
    rcases cfg.both_press_cc with _ | bcc
    · exact ⟨c, [], rfl, hl, by simp⟩
    · dsimp only
      exact mono_send bcc 127
        (fun d => activity_ping cfg now
          { d with s := { d.s with both_pressed := true }, changed := true })
        (monof_modping cfg now (fun s => { s with both_pressed := true })
          (fun _ => true)) c hl

/-- The release step simulates. -/
lemma simf_updRelease (cfg : SliderConfig) (now : ℚ) :
    SimF (updRelease cfg now) := by
  intro k sl ch e
  unfold updRelease
  dsimp only
  by_cases hP : sl.both_pressed = true
  · rw [if_pos hP, if_pos hP]
    rcases cfg.both_press_cc with _ | bcc
    · exact Or.inl ⟨_, k, rfl, rfl, rfl, le_refl k, by simp⟩
    · dsimp only
      exact sim_send bcc 0 _
        (simf_modping cfg now (fun s => { s with both_pressed := false })
          (fun _ => true))
        (monof_modping cfg now (fun s => { s with both_pressed := false })
          (fun _ => true)) k sl ch e
  · rw [if_neg hP, if_neg hP]
    exact Or.inl ⟨_, k, rfl, rfl, rfl, le_refl k, by simp⟩

/-- The release step is healthy-total. -/
lemma monof_updRelease (cfg : SliderConfig) (now : ℚ) :
    MonoF (updRelease cfg now) := by
  intro c hl
  unfold updRelease
  by_cases hP : c.s.both_pressed = true
  · rw [if_pos hP]
    rcases cfg.both_press_cc with _ | bcc
    · exact ⟨c, [], rfl, hl, by simp⟩
    · dsimp only
      exact mono_send bcc 0
        (fun d => activity_ping cfg now
          { d with s := { d.s with both_pressed := false }, changed := true })
        (monof_modping cfg now (fun s => { s with both_pressed := false })
          (fun _ => true)) c hl
  · rw [if_neg hP]
    exact ⟨c, [], rfl, hl, by simp⟩

/-- The down step simulates. -/
lemma simf_updDown (cfg : SliderConfig) (down : Bool) (now : ℚ) :
    SimF (updDown cfg down now) := by
  intro k sl ch e
  unfold updDown
  cases down with
  | false =>
    dsimp only
    exact Or.inl ⟨_, k, rfl, rfl, rfl, le_refl k, by simp⟩
  | true =>
    dsimp only
    exact simf_modping cfg now
      (fun s => { s with
        hold_count_down := s.hold_count_down + 1
        value := max 0 (s.value -
          (if s.hold_count_down + 1 = 1 then cfg.speed_initial
           else cfg.speed + cfg.accel_rate * ((s.hold_count_down + 1 : ℕ) : ℚ))) })
      (fun _ => true) k sl ch e

/-- The down step is healthy-total. -/
lemma monof_updDown (cfg : SliderConfig) (down : Bool) (now : ℚ) :
    MonoF (updDown cfg down now) := by
  intro c hl
  unfold updDown
  cases down with
  | false => exact ⟨_, [], rfl, hl, by simp⟩
  | true =>
    dsimp only
    exact monof_modping cfg now
      (fun s => { s with
        hold_count_down := s.hold_count_down + 1
        value := max 0 (s.value -
          (if s.hold_count_down + 1 = 1 then cfg.speed_initial
           else cfg.speed + cfg.accel_rate * ((s.hold_count_down + 1 : ℕ) : ℚ))) })
      (fun _ => true) c hl

/-- The up step simulates. -/
lemma simf_updUp (cfg : SliderConfig) (up : Bool) (now : ℚ) :
    SimF (updUp cfg up now) := by
  intro k sl ch e
  unfold updUp
  cases up with
  | false =>
    dsimp only
    exact Or.inl ⟨_, k, rfl, rfl, rfl, le_refl k, by simp⟩
  | true =>
    dsimp only
    exact simf_modping cfg now
      (fun s => { s with
        hold_count_up := s.hold_count_up + 1
        value := min 127 (s.value +
          (if s.hold_count_up + 1 = 1 then cfg.speed_initial
           else cfg.speed + cfg.accel_rate * ((s.hold_count_up + 1 : ℕ) : ℚ))) })
      (fun _ => true) k sl ch e

/-- The up step is healthy-total. -/
lemma monof_updUp (cfg : SliderConfig) (up : Bool) (now : ℚ) :
    MonoF (updUp cfg up now) := by
  intro c hl
  unfold updUp
  cases up with
  | false => exact ⟨_, [], rfl, hl, by simp⟩
  | true =>
    dsimp only
    exact monof_modping cfg now
      (fun s => { s with
        hold_count_up := s.hold_count_up + 1
        value := min 127 (s.value +
          (if s.hold_count_up + 1 = 1 then cfg.speed_initial
           else cfg.speed + cfg.accel_rate * ((s.hold_count_up + 1 : ℕ) : ℚ))) })
      (fun _ => true) c hl

/-- The emission step simulates. -/
lemma simf_updEmit (cfg : SliderConfig) (now : ℚ) :
    SimF (updEmit cfg now) := by
  intro k sl ch e
  unfold updEmit
  dsimp only
  by_cases hC : ch = true
  · rw [if_pos hC, if_pos hC]
    by_cases hN : pyInt sl.value ≠ sl.last_sent_value
    · rw [if_pos hN, if_pos hN]
      exact sim_send cfg.cc_number (pyInt sl.value) _
        (simf_modping cfg now
          (fun s => { s with last_sent_value := pyInt sl.value }) (fun b => b))
        (monof_modping cfg now
          (fun s => { s with last_sent_value := pyInt sl.value }) (fun b => b))
        k sl ch e
    · rw [if_neg hN, if_neg hN]
      exact Or.inl ⟨_, k, rfl, rfl, rfl, le_refl k, by simp⟩
  · rw [if_neg hC, if_neg hC]
    exact Or.inl ⟨_, k, rfl, rfl, rfl, le_refl k, by simp⟩

/-- The emission step is healthy-total. -/
lemma monof_updEmit (cfg : SliderConfig) (now : ℚ) :
    MonoF (updEmit cfg now) := by
  intro c hl
  unfold updEmit
  dsimp only
  by_cases hC : c.changed = true
  · rw [if_pos hC]
    by_cases hN : pyInt c.s.value ≠ c.s.last_sent_value
    · rw [if_pos hN]
      exact mono_send cfg.cc_number (pyInt c.s.value)
        (fun d => activity_ping cfg now
          { d with s := { d.s with last_sent_value := pyInt c.s.value } })
        (monof_modping cfg now
          (fun s => { s with last_sent_value := pyInt c.s.value }) (fun b => b))
        c hl
    · rw [if_neg hN]
      exact ⟨c, [], rfl, hl, by simp⟩
  · rw [if_neg hC]
    exact ⟨c, [], rfl, hl, by simp⟩

/-- Healthy-totality composes through `bindE`. -/
lemma monof_bindE (f g : Ctx → Except Ctx Ctx) (hf : MonoF f)
    (hg : MonoF g) : MonoF (fun c => bindE (f c) g) := by
  intro c hl
  obtain ⟨d, r, hfd, hld, hems⟩ := hf c hl
  obtain ⟨d₂, r₂, hgd, hld₂, hems₂⟩ := hg d hld
  refine ⟨d₂, r ++ r₂, ?_, hld₂, ?_⟩
  · dsimp only
    rw [hfd]
    exact hgd
  · rw [hems₂, hems, List.append_assoc]

/-- Simulation composes through `bindE`. -/
lemma simf_bindE (f g : Ctx → Except Ctx Ctx) (hf : SimF f) (hg : SimF g)
    (hgM : MonoF g) : SimF (fun c => bindE (f c) g) := by
  intro k sl ch e
  rcases hf k sl ch e with
    ⟨d₀, k', h₀, hl, h₁, hk, hlen⟩ | ⟨d₀, d₁, r, h₀, hl, h₁, hlen, hpre⟩
  · have hetaa : (⟨d₀.s, d₀.ems, none, d₀.changed⟩ : Ctx) = d₀ := by
      rw [← hl]
    have hetab : (⟨d₀.s, d₀.ems, some k', d₀.changed⟩ : Ctx)
        = { d₀ with left := some k' } := rfl
    rcases hg k' d₀.s d₀.changed d₀.ems with
      ⟨e₀, k'', g₀, gl, g₁, gk, glen⟩ | ⟨e₀, e₁, r₂, g₀, gl, g₁, glen, gpre⟩
    · rw [hetaa] at g₀
      rw [hetab] at g₁
      refine Or.inl ⟨e₀, k'', ?_, gl, ?_, gk.trans hk, ?_⟩
      · dsimp only
        rw [h₀]
        exact g₀
      · dsimp only
        rw [h₁]
        exact g₁
      · omega
    · rw [hetaa] at g₀
      rw [hetab] at g₁
      refine Or.inr ⟨e₀, e₁, r₂, ?_, gl, ?_, ?_, gpre⟩
      · dsimp only
        rw [h₀]
        exact g₀
      · dsimp only
        rw [h₁]
        exact g₁
      · omega
  · obtain ⟨e₀, r₂, g₀, gl, gems⟩ := hgM d₀ hl
    refine Or.inr ⟨e₀, d₁, r ++ r₂, ?_, gl, ?_, hlen, ?_⟩
    · dsimp only
      rw [h₀]
      exact g₀
    · dsimp only
      rw [h₁]
      rfl
    · rw [gems, hpre, List.append_assoc]

/-- The whole tick body simulates: the budgeted run either matches the
healthy run apart from the remaining budget, or raises with exactly the
budgeted prefix of the healthy run's emissions performed. -/
lemma simf_sliderUpdateE (cfg : SliderConfig) (down up : Bool) (now : ℚ) :
    SimF (sliderUpdateE cfg down up now) := by
  have h4 : SimF (fun c => bindE (updUp cfg up now c) (updEmit cfg now)) :=
    simf_bindE _ _ (simf_updUp cfg up now) (simf_updEmit cfg now)
      (monof_updEmit cfg now)
  have h4M : MonoF (fun c => bindE (updUp cfg up now c) (updEmit cfg now)) :=
    monof_bindE _ _ (monof_updUp cfg up now) (monof_updEmit cfg now)
  have h3 : SimF (fun c => bindE (updDown cfg down now c)
      (fun c => bindE (updUp cfg up now c) (updEmit cfg now))) :=
    simf_bindE _ _ (simf_updDown cfg down now) h4 h4M
  have h3M : MonoF (fun c => bindE (updDown cfg down now c)
      (fun c => bindE (updUp cfg up now c) (updEmit cfg now))) :=
    monof_bindE _ _ (monof_updDown cfg down now) h4M
  have h2 : SimF (fun c => bindE (updRelease cfg now c)
      (fun c => bindE (updDown cfg down now c)
        (fun c => bindE (updUp cfg up now c) (updEmit cfg now)))) :=
    simf_bindE _ _ (simf_updRelease cfg now) h3 h3M
  intro k sl ch e
  unfold sliderUpdateE
  by_cases hDU : (down && up) = true
  · rw [if_pos hDU, if_pos hDU]
    exact simf_updBoth cfg now k sl ch e
  · rw [if_neg hDU, if_neg hDU]
    exact h2 k sl ch e

/-- C1: the per-tick refresh step is claimed to leave every enabled
slider of a board with that board's fresh `touched_pins` snapshot.  The
code breaks out of the slider loop after refreshing the first matching
slider, while each slider keeps its own private cache, so the second
slider on the board keeps its stale all-false cache: evaluating
`update_touch_cache_for_all_boards` on one board with two enabled
sliders leaves slider 1 unchanged (cache ≠ snapshot) although slider 0
is refreshed. -/
theorem claim_C1_shared_refresh_eval :
    (update_touch_cache_for_all_boards [demo_board] [s30, s30])[1]? = some s30 ∧
    s30.cached_touched_pins ≠ demo_pins ∧
    (update_touch_cache_for_all_boards [demo_board] [s30, s30])[0]? =
      some { s30 with cached_touched_pins := demo_pins } := by
  decide

/-- C2: the slider value stays in [0, 127] under every tick (for any
debounced pin pattern, clock value and transport-failure pattern, with
the configured nonnegative step parameters) and under every inbound
MIDI control-change write (whose data byte is at most 127). -/
theorem claim_C2_value_bounds :
    (∀ (cfg : SliderConfig) (down up : Bool) (now : ℚ) (left : Option ℕ)
        (s : Slider),
      0 ≤ cfg.speed_initial → 0 ≤ cfg.speed → 0 ≤ cfg.accel_rate →
      0 ≤ s.value → s.value ≤ 127 →
      0 ≤ (sliderUpdate cfg down up now left s).1.value ∧
        (sliderUpdate cfg down up now left s).1.value ≤ 127) ∧
    (∀ (control v : ℕ) (cfg : SliderConfig) (s : Slider), v ≤ 127 →
      0 ≤ s.value → s.value ≤ 127 →
      0 ≤ (receive_slider control v cfg s).value ∧
        (receive_slider control v cfg s).value ≤ 127) := by
  constructor
  · intro cfg down up now left s h1 h2 h3 hv0 hv1
    have hP : ValB (exCtx (sliderUpdateE cfg down up now ⟨s, [], left, false⟩)) := by
      unfold sliderUpdateE
      by_cases hDU : (down && up) = true
      · rw [if_pos hDU]
        have h := updBoth_state cfg now ⟨s, [], left, false⟩
        exact ⟨by rw [h.1]; exact hv0, by rw [h.1]; exact hv1⟩
      · rw [if_neg hDU]
        refine bindE_pred ValB _ _ ?_ ?_
        · have h := updRelease_state cfg now ⟨s, [], left, false⟩
          exact ⟨by rw [h.1]; exact hv0, by rw [h.1]; exact hv1⟩
        · intro c hc
          refine bindE_pred ValB _ _ ?_ ?_
          · exact updDown_bounds cfg down now c h1 h2 h3 hc
          · intro c₂ hc₂
            refine bindE_pred ValB _ _ ?_ ?_
            · exact updUp_bounds cfg up now c₂ h1 h2 h3 hc₂
            · intro c₃ hc₃
              have h := updEmit_value cfg now c₃
              exact ⟨by rw [h]; exact hc₃.1, by rw [h]; exact hc₃.2⟩
    unfold sliderUpdate
    by_cases hE : s.enabled
    · rw [if_pos hE]
      cases hU : sliderUpdateE cfg down up now ⟨s, [], left, false⟩ with
      | ok c =>
        rw [hU] at hP
        simp only [exCtx] at hP
        exact ⟨hP.1, hP.2⟩
      | error c =>
        rw [hU] at hP
        simp only [exCtx] at hP
        exact ⟨hP.1, hP.2⟩
    · rw [if_neg hE]
      exact ⟨hv0, hv1⟩
  · intro control v cfg s hv h0 h1
    unfold receive_slider
    split_ifs
    · refine ⟨by positivity, ?_⟩
      show ((v : ℚ)) ≤ 127
      exact_mod_cast hv
    · exact ⟨h0, h1⟩
    · exact ⟨h0, h1⟩

/-- C2 witness: the bounds theorem applied to the first configured
slider at its initial state for one up-tick, and to an inbound write of
value 127. -/
theorem claim_C2_value_bounds_witness :
    (0 ≤ (sliderUpdate cfg3 false true 0 none s30).1.value ∧
      (sliderUpdate cfg3 false true 0 none s30).1.value ≤ 127) ∧
    (0 ≤ (receive_slider 3 127 cfg3 s30).value ∧
      (receive_slider 3 127 cfg3 s30).value ≤ 127) :=
  ⟨claim_C2_value_bounds.1 cfg3 false true 0 none s30
      (by norm_num [cfg3]) (by norm_num [cfg3]) (by norm_num [cfg3])
      (by norm_num [s30, TouchSlider_init, cfg3])
      (by norm_num [s30, TouchSlider_init, cfg3]),
    claim_C2_value_bounds.2 3 127 cfg3 s30 (by norm_num)
      (by norm_num [s30, TouchSlider_init, cfg3])
      (by norm_num [s30, TouchSlider_init, cfg3])⟩

/-- C10: if the slider list is empty or holds no enabled slider, the
gesture-toggle update returns false, emits nothing and leaves the
manager state (all fields) unchanged, whatever that state is. -/
theorem claim_C10_empty_update_frame (cfg : ABPConfig) (m : ABPState)
    (sliders : List Slider) (now : ℚ)
    (h : sliders = [] ∨ ∀ s ∈ sliders, s.enabled = false) :
    abp_update cfg sliders now m = (m, [], false) := by
  rcases h with h | h
  · subst h
    simp [abp_update]
  · unfold abp_update
    by_cases hM : (!m.enabled || sliders.isEmpty) = true
    · rw [if_pos hM]
    · rw [if_neg hM]
      have hf : sliders.filter (fun s => s.enabled) = [] := by
        rw [List.filter_eq_nil_iff]
        intro a ha
        simp [h a ha]
      simp [hf]

/-- C10 witness: empty slider list against the freshly initialized
manager. -/
theorem claim_C10_empty_update_frame_witness :
    abp_update cfg7 [] 0 (abp_init cfg7) = (abp_init cfg7, [], false) :=
  claim_C10_empty_update_frame cfg7 (abp_init cfg7) [] 0 (Or.inl rfl)

/-- C8: the delayed one-shot trigger armed at t = 0 with delay 20 fires
exactly for now ≥ 20 while not yet triggered or completed; arming is
idempotent (only the first inbound message records the arm instant);
and completion is terminal — once completed, `should_trigger` is false
for every time, and no operation ever clears the completed flag. -/
theorem claim_C8_one_shot_trigger :
    (∀ (m : LEDCal) (now : ℚ),
      m.first_midi_received = true → m.first_midi_time = some 0 →
      m.led_calibration_triggered = false →
      m.led_calibration_completed = false →
      (should_trigger_led_calibration now m = true ↔ 20 ≤ now)) ∧
    (∀ (now : ℚ) (m : LEDCal), m.first_midi_received = true →
      on_midi_received now m = m) ∧
    (∀ now : ℚ,
      (on_midi_received now ledcal_init).first_midi_received = true ∧
      (on_midi_received now ledcal_init).first_midi_time = some now) ∧
    (∀ (m : LEDCal) (now : ℚ), m.led_calibration_completed = true →
      should_trigger_led_calibration now m = false) ∧
    (∀ (m : LEDCal) (now : ℚ),
      (on_midi_received now m).led_calibration_completed
          = m.led_calibration_completed ∧
      (mark_led_calibration_triggered m).led_calibration_completed
          = m.led_calibration_completed ∧
      (mark_led_calibration_completed m).led_calibration_completed
          = true) := by
  refine ⟨?_, ?_, ?_, ?_, ?_⟩
  · intro m now h1 h2 h3 h4
    unfold should_trigger_led_calibration LED_CALIBRATION_ENABLED
      LED_CALIBRATION_DELAY
    simp [h1, h2, h3, h4]
  · intro now m h
    unfold on_midi_received
    simp [h]
  · intro now
    unfold on_midi_received ledcal_init
    simp
  · intro m now h
    unfold should_trigger_led_calibration
    simp [h]
  · intro m now
    unfold on_midi_received mark_led_calibration_triggered
      mark_led_calibration_completed
    refine ⟨?_, rfl, rfl⟩
    split <;> rfl

/-- C8 witness: trigger armed at 0 checked at 25; re-arming at 5 is a
no-op; a completed trigger checked at 100 stays inert. -/
theorem claim_C8_one_shot_trigger_witness :
    (should_trigger_led_calibration 25 (on_midi_received 0 ledcal_init)
        = true ↔ (20 : ℚ) ≤ 25) ∧
    on_midi_received 5 (on_midi_received 0 ledcal_init)
        = on_midi_received 0 ledcal_init ∧
    should_trigger_led_calibration 100
        (mark_led_calibration_completed (on_midi_received 0 ledcal_init))
        = false :=
  ⟨claim_C8_one_shot_trigger.1 (on_midi_received 0 ledcal_init) 25
      rfl rfl rfl rfl,
    claim_C8_one_shot_trigger.2.1 5 (on_midi_received 0 ledcal_init) rfl,
    claim_C8_one_shot_trigger.2.2.2.1
      (mark_led_calibration_completed (on_midi_received 0 ledcal_init)) 100
      rfl⟩

/-- C6 counterexample: the emission guard compares the *truncated*
value (`int()`), not the rounded one.  From value 67 with last emitted
67, a down-tick of step 0.4 lands on 66.6: the code emits 66 although
`round(66.6) = 67` equals the previously emitted integer, so "emit only
when `round(value)` differs from the last emitted integer" is false. -/
theorem claim_C6_emission_guard_cx :
    (sliderUpdate cfg6 true false 0 none s6).2.1.filter
        (fun e => e.1 = 3) = [(3, 66)] ∧
    pyRound (sliderUpdate cfg6 true false 0 none s6).1.value = 67 ∧
    s6.last_sent_value = 67 := by
  norm_num [s6, cfg6, TouchSlider_init, sliderUpdate, sliderUpdateE,
    updRelease, updDown, updUp, updEmit, activity_ping, trySend, bindE,
    pyInt, pyRound, Int.floor_eq_iff]

/-- C6 amended: on a tick with a healthy transport (and the both-press
and activity channels distinct from the value channel), either no
value-channel emission happens and `last_sent_value` is unchanged, or
exactly one happens, carrying the truncated (`int()`, not rounded)
new value, which differs from the previous `last_sent_value` and
becomes the new `last_sent_value` — so ticks on which the truncated
value equals the last emitted integer never re-emit. -/
theorem claim_C6_emission_guard_amended (cfg : SliderConfig)
    (down up : Bool) (now : ℚ) (s : Slider)
    (hB : cfg.both_press_cc ≠ some cfg.cc_number)
    (hA : cfg.activity_channel_cc ≠ some cfg.cc_number) :
    ((sliderUpdate cfg down up now none s).2.1.filter
        (fun e => e.1 = cfg.cc_number) = [] ∧
      (sliderUpdate cfg down up now none s).1.last_sent_value
        = s.last_sent_value) ∨
    ((sliderUpdate cfg down up now none s).2.1.filter
        (fun e => e.1 = cfg.cc_number)
        = [(cfg.cc_number,
            pyInt (sliderUpdate cfg down up now none s).1.value)] ∧
      pyInt (sliderUpdate cfg down up now none s).1.value
        ≠ s.last_sent_value ∧
      (sliderUpdate cfg down up now none s).1.last_sent_value
        = pyInt (sliderUpdate cfg down up now none s).1.value) := by
  have hPost : PostC cfg s.last_sent_value
      (exCtx (sliderUpdateE cfg down up now ⟨s, [], none, false⟩)) := by
    have hPre : PreC cfg s.last_sent_value ⟨s, [], none, false⟩ :=
      ⟨rfl, rfl, rfl⟩
    unfold sliderUpdateE
    by_cases hDU : (down && up) = true
    · rw [if_pos hDU]
      have h := pre_updBoth cfg s.last_sent_value now hB hA _ hPre
      exact Or.inl ⟨h.2.1, h.2.2⟩
    · rw [if_neg hDU]
      refine bindE_pred₂ (PreC cfg s.last_sent_value)
        (PostC cfg s.last_sent_value) _ _
        (pre_updRelease cfg s.last_sent_value now hB hA _ hPre) ?_ ?_
      · intro c hc
        refine bindE_pred₂ (PreC cfg s.last_sent_value)
          (PostC cfg s.last_sent_value) _ _
          (pre_updDown cfg s.last_sent_value down now hA c hc) ?_ ?_
        · intro c₂ hc₂
          refine bindE_pred₂ (PreC cfg s.last_sent_value)
            (PostC cfg s.last_sent_value) _ _
            (pre_updUp cfg s.last_sent_value up now hA c₂ hc₂) ?_ ?_
          · intro c₃ hc₃
            exact post_updEmit cfg s.last_sent_value now hA c₃ hc₃
          · intro c₃ hc₃
            exact Or.inl ⟨hc₃.2.1, hc₃.2.2⟩
        · intro c₂ hc₂
          exact Or.inl ⟨hc₂.2.1, hc₂.2.2⟩
      · intro c hc
        exact Or.inl ⟨hc.2.1, hc.2.2⟩
  by_cases hE : s.enabled = true
  · unfold sliderUpdate
    rw [if_pos hE]
    cases hU : sliderUpdateE cfg down up now ⟨s, [], none, false⟩ with
    | ok c =>
      rw [hU] at hPost
      simp only [exCtx] at hPost
      dsimp only
      rcases hPost with ⟨h1, h2⟩ | ⟨h1, h2, h3⟩
      · exact Or.inl ⟨h1, h2⟩
      · exact Or.inr ⟨h1, h2, h3⟩
    | error c =>
      rw [hU] at hPost
      simp only [exCtx] at hPost
      dsimp only
      rcases hPost with ⟨h1, h2⟩ | ⟨h1, h2, h3⟩
      · exact Or.inl ⟨h1, h2⟩
      · exact Or.inr ⟨h1, h2, h3⟩
  · unfold sliderUpdate
    rw [if_neg hE]
    exact Or.inl ⟨rfl, rfl⟩

/-- C6 witness: the amended guard theorem applied to the first
configured slider at its initial state for one up-tick. -/
theorem claim_C6_emission_guard_amended_witness :
    ((sliderUpdate cfg3 false true 0 none s30).2.1.filter
        (fun e => e.1 = cfg3.cc_number) = [] ∧
      (sliderUpdate cfg3 false true 0 none s30).1.last_sent_value
        = s30.last_sent_value) ∨
    ((sliderUpdate cfg3 false true 0 none s30).2.1.filter
        (fun e => e.1 = cfg3.cc_number)
        = [(cfg3.cc_number,
            pyInt (sliderUpdate cfg3 false true 0 none s30).1.value)] ∧
      pyInt (sliderUpdate cfg3 false true 0 none s30).1.value
        ≠ s30.last_sent_value ∧
      (sliderUpdate cfg3 false true 0 none s30).1.last_sent_value
        = pyInt (sliderUpdate cfg3 false true 0 none s30).1.value) :=
  claim_C6_emission_guard_amended cfg3 false true 0 s30
    (by decide) (by decide)

/-- C7: toggle hysteresis for stable 3 s / min 10 s / max 30 s /
cooldown 60 s.  (1) an all-both-press state held for exactly 3 s (with
the cooldown satisfied) activates the toggle and emits 127; (2) if the
gesture is released, the active toggle survives (no emission) while
less than 10 s have elapsed since activation; (3) with the gesture
released, it deactivates and emits 0 once 10 s have elapsed; (4) even
while the gesture is still held, it deactivates and emits 0 once 30 s
have elapsed; (5) with the cooldown not yet elapsed, a re-trigger
attempt does nothing; (6) `last_trigger_time` is initialized to
`-cooldown`, so at every start time ≥ 0 the cooldown test already
passes. -/
theorem claim_C7_toggle_hysteresis :
    (∀ (sliders : List Slider) (m : ABPState) (now : ℚ),
      (∃ s ∈ sliders, s.enabled = true) →
      (∀ s ∈ sliders, s.enabled = true → s.both_pressed = true) →
      m.enabled = true → m.all_both_pressed = true → m.toggle_active = false →
      m.stable_start_time = some (now - 3) →
      60 ≤ now - m.last_trigger_time →
      abp_update cfg7 sliders now m =
        ({ m with
            toggle_active := true
            toggle_start_time := some now
            last_trigger_time := now }, [(10, 127)], true)) ∧
    (∀ (sliders : List Slider) (m : ABPState) (now t₀ : ℚ),
      (∃ s ∈ sliders, s.enabled = true) →
      (∃ s ∈ sliders, s.enabled = true ∧ s.both_pressed = false) →
      m.enabled = true → m.toggle_active = true →
      m.toggle_start_time = some t₀ → now - t₀ < 10 →
      (abp_update cfg7 sliders now m).1.toggle_active = true ∧
      (abp_update cfg7 sliders now m).1.toggle_start_time = some t₀ ∧
      (abp_update cfg7 sliders now m).2.1 = [] ∧
      (abp_update cfg7 sliders now m).2.2 = false) ∧
    (∀ (sliders : List Slider) (m : ABPState) (now t₀ : ℚ),
      (∃ s ∈ sliders, s.enabled = true) →
      (∃ s ∈ sliders, s.enabled = true ∧ s.both_pressed = false) →
      m.enabled = true → m.toggle_active = true →
      m.toggle_start_time = some t₀ → 10 ≤ now - t₀ →
      (abp_update cfg7 sliders now m).1.toggle_active = false ∧
      (abp_update cfg7 sliders now m).2.1 = [(10, 0)] ∧
      (abp_update cfg7 sliders now m).2.2 = true) ∧
    (∀ (sliders : List Slider) (m : ABPState) (now t₀ : ℚ),
      (∃ s ∈ sliders, s.enabled = true) →
      (∀ s ∈ sliders, s.enabled = true → s.both_pressed = true) →
      m.enabled = true → m.all_both_pressed = true → m.toggle_active = true →
      m.toggle_start_time = some t₀ → 30 ≤ now - t₀ →
      (abp_update cfg7 sliders now m).1.toggle_active = false ∧
      (abp_update cfg7 sliders now m).2.1 = [(10, 0)] ∧
      (abp_update cfg7 sliders now m).2.2 = true) ∧
    (∀ (sliders : List Slider) (m : ABPState) (now : ℚ),
      (∃ s ∈ sliders, s.enabled = true) →
      (∀ s ∈ sliders, s.enabled = true → s.both_pressed = true) →
      m.enabled = true → m.all_both_pressed = true → m.toggle_active = false →
      now - m.last_trigger_time < 60 →
      abp_update cfg7 sliders now m = (m, [], false)) ∧
    ((abp_init cfg7).last_trigger_time = -60 ∧
      ∀ now : ℚ, 0 ≤ now →
        60 ≤ now - (abp_init cfg7).last_trigger_time) := by
  refine ⟨?_, ?_, ?_, ?_, ?_, ?_, ?_⟩
  · intro sliders m now hex hall hme hmab hnt hst hcd
    have hne : sliders.isEmpty = false := by
      obtain ⟨s₀, hs₀, _⟩ := hex
      exact isEmpty_false_of_mem hs₀
    have hfe := filter_enabled_isEmpty_false sliders hex
    have hab := filter_all_both sliders hall
    have h3 : (3:ℚ) ≤ now - (now - 3) := by linarith
    unfold abp_update
    simp [hne, hfe, hab, hme, hmab, hnt, hst, cfg7, h3, hcd]
  · intro sliders m now t₀ hex hrel hme hta hts hlt
    have hne : sliders.isEmpty = false := by
      obtain ⟨s₀, hs₀, _⟩ := hex
      exact isEmpty_false_of_mem hs₀
    have hfe := filter_enabled_isEmpty_false sliders hex
    have hab := filter_all_both_false sliders hrel
    have h10 : ¬ ((10:ℚ) ≤ now - t₀) := by linarith
    have h30 : ¬ ((30:ℚ) ≤ now - t₀) := by linarith
    unfold abp_update
    by_cases hM : m.all_both_pressed = true
    · simp [hne, hfe, hab, hme, hta, hts, hM, cfg7, h10, h30]
    · simp [hne, hfe, hab, hme, hta, hts,
        Bool.eq_false_iff.mpr hM, cfg7, h10, h30]
  · intro sliders m now t₀ hex hrel hme hta hts hge
    have hne : sliders.isEmpty = false := by
      obtain ⟨s₀, hs₀, _⟩ := hex
      exact isEmpty_false_of_mem hs₀
    have hfe := filter_enabled_isEmpty_false sliders hex
    have hab := filter_all_both_false sliders hrel
    unfold abp_update
    by_cases hM : m.all_both_pressed = true
    · simp [hne, hfe, hab, hme, hta, hts, hM, cfg7, hge]
    · simp [hne, hfe, hab, hme, hta, hts,
        Bool.eq_false_iff.mpr hM, cfg7, hge]
  · intro sliders m now t₀ hex hall hme hmab hta hts hge
    have hne : sliders.isEmpty = false := by
      obtain ⟨s₀, hs₀, _⟩ := hex
      exact isEmpty_false_of_mem hs₀
    have hfe := filter_enabled_isEmpty_false sliders hex
    have hab := filter_all_both sliders hall
    unfold abp_update
    simp [hne, hfe, hab, hme, hmab, hta, hts, cfg7, hge]
  · intro sliders m now hex hall hme hmab hnt hlt
    have hne : sliders.isEmpty = false := by
      obtain ⟨s₀, hs₀, _⟩ := hex
      exact isEmpty_false_of_mem hs₀
    have hfe := filter_enabled_isEmpty_false sliders hex
    have hab := filter_all_both sliders hall
    have hcd : ¬ ((60:ℚ) ≤ now - m.last_trigger_time) := by linarith
    unfold abp_update
    simp [hne, hfe, hab, hme, hmab, hnt, cfg7, hcd]
  · unfold abp_init cfg7
    norm_num
  · intro now h
    unfold abp_init cfg7
    simp only
    linarith

/-- C9: a failed sensor read during the cache refresh disables the
slider; a disabled slider is inert forever — `update_touch_cache` is the
identity, `update` is a no-op returning false (and no operation, the
inbound-MIDI handler included, ever turns `enabled` back on); and the
refresh step is non-interfering: slider `j`'s outcome depends only on
its own prior state and the immutable board assignments, so one
slider's failure cannot change any other slider's state. -/
theorem claim_C9_sensor_failure_isolation :
    (∀ (b : Board) (s : Slider), s.enabled = true → b.touched_pins = none →
      update_touch_cache b s = { s with enabled := false }) ∧
    (∀ (b : Board) (s : Slider), s.enabled = false →
      update_touch_cache b s = s) ∧
    (∀ (cfg : SliderConfig) (down up : Bool) (now : ℚ) (left : Option ℕ)
        (s : Slider), s.enabled = false →
      sliderUpdate cfg down up now left s = (s, [], false)) ∧
    (∀ (control v : ℕ) (cfg : SliderConfig) (s : Slider),
      (receive_slider control v cfg s).enabled = s.enabled) ∧
    (∀ (boards : List Board) (ss ss' : List Slider) (j : ℕ),
      ss.map Slider.mpr121 = ss'.map Slider.mpr121 → ss[j]? = ss'[j]? →
      (update_touch_cache_for_all_boards boards ss)[j]?
        = (update_touch_cache_for_all_boards boards ss')[j]?) := by
  refine ⟨?_, ?_, ?_, ?_, all_boards_agree⟩
  · intro b s he hb
    unfold update_touch_cache
    simp [he, hb]
  · intro b s he
    unfold update_touch_cache
    simp [he]
  · intro cfg down up now left s he
    unfold sliderUpdate
    simp [he]
  · intro control v cfg s
    unfold receive_slider
    split_ifs <;> rfl

/-- C9 witness: a board whose read raises disables its slider; the
disabled slider is inert under both refresh and update; and the
refresh outcome at index 0 agrees across two lists with the same board
assignment and the same entry there. -/
theorem claim_C9_sensor_failure_isolation_witness :
    update_touch_cache demo_board_fail s30 = { s30 with enabled := false } ∧
    update_touch_cache demo_board { s30 with enabled := false }
        = { s30 with enabled := false } ∧
    sliderUpdate cfg3 true true 0 none { s30 with enabled := false }
        = ({ s30 with enabled := false }, [], false) ∧
    (update_touch_cache_for_all_boards [demo_board] [s30])[0]?
        = (update_touch_cache_for_all_boards [demo_board] [s30])[0]? :=
  ⟨claim_C9_sensor_failure_isolation.1 demo_board_fail s30 rfl rfl,
    claim_C9_sensor_failure_isolation.2.1 demo_board
      { s30 with enabled := false } rfl,
    claim_C9_sensor_failure_isolation.2.2.1 cfg3 true true 0 none
      { s30 with enabled := false } rfl,
    claim_C9_sensor_failure_isolation.2.2.2.2 [demo_board] [s30] [s30] 0
      rfl rfl⟩

/-- C7 witness: the hysteresis theorem applied to concrete states — a
trigger at t = 3 after stability since t = 0, an early release checked
at t = 5 and t = 14, a forced timeout at t = 33, a blocked re-trigger at
t = 3 after a trigger at t = 1, and the fresh manager's cooldown test at
t = 0. -/
theorem claim_C7_toggle_hysteresis_witness :
    abp_update cfg7 [sBoth] 3 m1 =
      ({ m1 with
          toggle_active := true
          toggle_start_time := some 3
          last_trigger_time := 3 }, [(10, 127)], true) ∧
    ((abp_update cfg7 [s30] 5 m2).1.toggle_active = true ∧
      (abp_update cfg7 [s30] 5 m2).1.toggle_start_time = some 3 ∧
      (abp_update cfg7 [s30] 5 m2).2.1 = [] ∧
      (abp_update cfg7 [s30] 5 m2).2.2 = false) ∧
    ((abp_update cfg7 [s30] 14 m2).1.toggle_active = false ∧
      (abp_update cfg7 [s30] 14 m2).2.1 = [(10, 0)] ∧
      (abp_update cfg7 [s30] 14 m2).2.2 = true) ∧
    ((abp_update cfg7 [sBoth] 33 m2).1.toggle_active = false ∧
      (abp_update cfg7 [sBoth] 33 m2).2.1 = [(10, 0)] ∧
      (abp_update cfg7 [sBoth] 33 m2).2.2 = true) ∧
    abp_update cfg7 [sBoth] 3 m5 = (m5, [], false) ∧
    (60 : ℚ) ≤ 0 - (abp_init cfg7).last_trigger_time := by
  refine ⟨?_, ?_, ?_, ?_, ?_, ?_⟩
  · have h := claim_C7_toggle_hysteresis.1 [sBoth] m1 3
      ⟨sBoth, List.mem_singleton.mpr rfl, rfl⟩
      (by intro s hs he; rw [List.mem_singleton] at hs; subst hs; rfl)
      rfl rfl rfl (by norm_num [m1]) (by norm_num [m1])
    simpa using h
  · exact claim_C7_toggle_hysteresis.2.1 [s30] m2 5 3
      ⟨s30, List.mem_singleton.mpr rfl, rfl⟩
      ⟨s30, List.mem_singleton.mpr rfl, rfl, rfl⟩
      rfl rfl rfl (by norm_num)
  · exact claim_C7_toggle_hysteresis.2.2.1 [s30] m2 14 3
      ⟨s30, List.mem_singleton.mpr rfl, rfl⟩
      ⟨s30, List.mem_singleton.mpr rfl, rfl, rfl⟩
      rfl rfl rfl (by norm_num)
  · exact claim_C7_toggle_hysteresis.2.2.2.1 [sBoth] m2 33 3
      ⟨sBoth, List.mem_singleton.mpr rfl, rfl⟩
      (by intro s hs he; rw [List.mem_singleton] at hs; subst hs; rfl)
      rfl rfl rfl rfl (by norm_num)
  · exact claim_C7_toggle_hysteresis.2.2.2.2.1 [sBoth] m5 3
      ⟨sBoth, List.mem_singleton.mpr rfl, rfl⟩
      (by intro s hs he; rw [List.mem_singleton] at hs; subst hs; rfl)
      rfl rfl rfl (by norm_num [m5, m1])
  · exact claim_C7_toggle_hysteresis.2.2.2.2.2.2 0 le_rfl

/-- C3 counterexample: with `initial_value = 64`, `speed_initial = 1`,
`speed = 1`, `accel_rate = 0.1`, the value after the second consecutive
up-tick is 66.2 (the code adds `speed + accel_rate * holdCount` with the
already-incremented count), not 66.1 as the claim states. -/
theorem claim_C3_scenario_cx :
    c3_s2.1.value = 331/5 ∧ c3_s2.1.value ≠ 661/10 := by
  norm_num [c3_s2, c3_s1, s30, cfg3, TouchSlider_init, sliderUpdate,
    sliderUpdateE, updRelease, updDown, updUp, updEmit, activity_ping,
    trySend, bindE, pyInt]

/-- C3 amended: holding up for 3 consecutive ticks from 64 yields values
65, 66.2, 67.5, and the value-channel emissions on those ticks are the
truncated integers 65, 66, 67. -/
theorem claim_C3_scenario_amended :
    c3_s1.1.value = 65 ∧ c3_s2.1.value = 331/5 ∧ c3_s3.1.value = 135/2 ∧
    c3_s1.2.1.filter (fun e => e.1 = 3) = [(3, 65)] ∧
    c3_s2.2.1.filter (fun e => e.1 = 3) = [(3, 66)] ∧
    c3_s3.2.1.filter (fun e => e.1 = 3) = [(3, 67)] := by
  norm_num [c3_s3, c3_s2, c3_s1, s30, cfg3, TouchSlider_init, sliderUpdate,
    sliderUpdateE, updRelease, updDown, updUp, updEmit, activity_ping,
    trySend, bindE, pyInt]

/-- C4 counterexample: when the very first emission of a tick (the
both-press-on message) raises, the code's `except` handler sets
`enabled = False` — the slider does not remain enabled, and the state
change that motivated the emission (`both_pressed := True`) is not
committed either. -/
theorem claim_C4_emission_failure_cx :
    (sliderUpdate cfg3 true true 0 (some 0) (TouchSlider_init cfg3 0)).1.enabled
        = false ∧
    (sliderUpdate cfg3 true true 0 (some 0) (TouchSlider_init cfg3 0)).1.both_pressed
        = false := by
  decide

/-- C4 amended: for every slider, every tick and every transport
budget (`some n`: the first `n` sends succeed, the next raises), the
update catches any emission failure and returns normally, and either no
send fails and the tick is exactly the healthy-transport tick, or the
slider ends permanently disabled (`enabled := False`, not left enabled)
with exactly the first `n` emissions of the healthy-transport tick
performed — everything after the failing send is skipped. -/
theorem claim_C4_emission_failure_amended (cfg : SliderConfig)
    (down up : Bool) (now : ℚ) (s : Slider) (n : ℕ) :
    sliderUpdate cfg down up now (some n) s
        = sliderUpdate cfg down up now none s ∨
    ((sliderUpdate cfg down up now (some n) s).1.enabled = false ∧
      (sliderUpdate cfg down up now (some n) s).2.1.length = n ∧
      (sliderUpdate cfg down up now (some n) s).2.1
        = (sliderUpdate cfg down up now none s).2.1.take n) := by
  by_cases hE : s.enabled = true
  · unfold sliderUpdate
    rw [if_pos hE, if_pos hE]
    rcases simf_sliderUpdateE cfg down up now n s false [] with
      ⟨d₀, k', h₀, hl, h₁, hk, hlen⟩ | ⟨d₀, d₁, r, h₀, hl, h₁, hlen, hpre⟩
    · rw [h₀, h₁]
      exact Or.inl rfl
    · rw [h₀, h₁]
      refine Or.inr ⟨rfl, ?_, ?_⟩
      · simpa using hlen
      · have hn : d₁.ems.length = n := by simpa using hlen
        dsimp only
        rw [hpre, ← hn, List.take_left]
  · unfold sliderUpdate
    rw [if_neg hE, if_neg hE]
    exact Or.inl rfl

/-- C5 amended: on every tick during which both pins are stably
pressed, `value` does not change and the hold counters are left
unchanged (frozen at their prior values, not reset to 0) — this holds
for every slider state, every clock value and every transport-failure
pattern. -/
theorem claim_C5_mutual_exclusion_amended (cfg : SliderConfig) (now : ℚ)
    (left : Option ℕ) (s : Slider) :
    (sliderUpdate cfg true true now left s).1.value = s.value ∧
    (sliderUpdate cfg true true now left s).1.hold_count_down
        = s.hold_count_down ∧
    (sliderUpdate cfg true true now left s).1.hold_count_up
        = s.hold_count_up := by
  unfold sliderUpdate sliderUpdateE
  by_cases hE : s.enabled
  · have h := updBoth_state cfg now ⟨s, [], left, false⟩
    cases hU : updBoth cfg now ⟨s, [], left, false⟩ with
    | ok c =>
      rw [hU] at h
      simp only [exCtx] at h
      simp [hE, hU, h.1, h.2.1, h.2.2]
    | error c =>
      rw [hU] at h
      simp only [exCtx] at h
      simp [hE, hU, h.1, h.2.1, h.2.2]
  · simp [hE]

/-- C5 counterexample: on the tick `bothPressed` becomes true the hold
counters are not reset: a slider entering both-press with
`hold_count_down = 3` keeps that count. -/
theorem claim_C5_mutual_exclusion_cx :
    (sliderUpdate cfg3 true true 0 none
        { TouchSlider_init cfg3 0 with hold_count_down := 3 }).1.both_pressed
      = true ∧
    (sliderUpdate cfg3 true true 0 none
        { TouchSlider_init cfg3 0 with hold_count_down := 3 }).1.hold_count_down
      = 3 := by
  decide
